import Mathlib

/-!
Shallow embedding of the motion-detection pipeline
(repository `motion_detection`, Python sources under `src/`).

The embedding models, faithfully to the Python source:

* `src/detector/model/opencv_detector.py` — the RabbitMQ `callback`
  closure inside `OpenCVDetector.process_images` (image read, motion
  comparison against the retained previous frame, contour filtering,
  publish of the detection record, selective previous-frame update,
  acknowledgement, and the error path), together with the consume loop
  (`start_consuming` wrapped in `except KeyboardInterrupt` only, so any
  other exception raised by the callback terminates the loop).
* `src/displayer/model/opencv_displayer.py` — the `play` generator's
  drain loop over the shared frame buffer.
* `src/streamer/controller/controller.py` — URL validation against
  `HTTPS_URL_PATTERN` and delegation to the model.

Images and the OpenCV primitives applied to them (`cvtColor`, `absdiff`,
`threshold`, `dilate`, `findContours`) are external collaborators: the
code under verification never inspects pixels itself.  They are modelled
by an abstract image type `Img` and an abstract function
`diffContours : Img → Img → List Contour` standing for the composite
grayscale/absdiff/threshold/dilate/findContours pipeline of lines
113–122, and `imread : String → Option Img` standing for `cv2.imread`
(`none` = undecodable).  Everything downstream of those calls — the
area filter, the record construction, the publish, the state update,
the ack, the raise — is translated statement by statement.
-/

namespace MotionDetection

/-- A JSON value, as produced by `json.dumps` on the Python side.  An
object keeps its key/value pairs in insertion order, matching Python
dict semantics. -/
inductive Json : Type where
  | int (n : Int)
  | str (s : String)
  | bool (b : Bool)
  | arr (elems : List Json)
  | obj (fields : List (String × Json))

/-- The keys of a JSON object (in order); `[]` for non-objects. -/
def Json.keys : Json → List String
  | .obj fields => fields.map Prod.fst
  | _ => []

/-- An axis-aligned bounding rectangle `(x, y, w, h)` as returned by
`cv2.boundingRect` (line 128 of `opencv_detector.py`). -/
structure Rect : Type where
  x : Int
  y : Int
  w : Int
  h : Int
  deriving DecidableEq, Repr

/-- `json.dumps` serialises the `(x, y, w, h)` tuple as a JSON array. -/
def Rect.toJson (r : Rect) : Json :=
  .arr [.int r.x, .int r.y, .int r.w, .int r.h]

/-- A contour as returned by `cv2.findContours`/`imutils.grab_contours`.
The detector code consults a contour only through `cv2.contourArea`
(a nonnegative real; exact rational here) and `cv2.boundingRect`, so the
model records exactly those two observations. -/
structure Contour : Type where
  area : ℚ
  rect : Rect
  deriving DecidableEq, Repr

/-- The contour-filtering loop of `opencv_detector.py` lines 123–129:

```
contours = []
for c in cnts:
    # if the contour is too small, ignore it
    if cv2.contourArea(c) < 500:
        continue
    (x, y, w, h) = cv2.boundingRect(c)
    contours.append((x, y, w, h))
```
-/
def filterContours (cnts : List Contour) : List Rect :=
  cnts.filterMap (fun c => if c.area < 500 then none else some c.rect)

/-- A frame announcement (channel A message), the JSON body parsed at
lines 101–103: `{frame_number, frame_path}`. -/
structure FrameMsg : Type where
  frame_number : Int
  frame_path : String
  deriving DecidableEq, Repr

/-- `os.path.split(frame_path)[1]` (line 145): the part of the path
after the last `/` (POSIX separator). -/
def basename (p : String) : String :=
  ⟨(p.toList.reverse.takeWhile (fun c => c ≠ '/')).reverse⟩

/-- The detection record dict built at lines 131–136:

```
motion_data = {
    'frame_number': frame_number,
    'frame_path': frame_path,
    'motion_detected': bool(contours),
    'contours': contours
}
```

`bool(contours)` is Python truthiness: `True` iff the list is
non-empty. -/
structure MotionRecord : Type where
  frame_number : Int
  frame_path : String
  motion_detected : Bool
  contours : List Rect
  deriving DecidableEq, Repr

/-- Build the record exactly as lines 131–136 do. -/
def mkMotionRecord (frame_number : Int) (frame_path : String)
    (contours : List Rect) : MotionRecord :=
  { frame_number := frame_number
    frame_path := frame_path
    motion_detected := !contours.isEmpty
    contours := contours }

/-- `json.dumps(motion_data)` (line 141): the wire body published to the
detections queue, with dict keys in insertion order. -/
def MotionRecord.toJson (r : MotionRecord) : Json :=
  .obj [ ("frame_number", .int r.frame_number)
       , ("frame_path", .str r.frame_path)
       , ("motion_detected", .bool r.motion_detected)
       , ("contours", .arr (r.contours.map Rect.toJson)) ]

/-- The mutable state captured by the `callback` closure (lines
110, 151–152): `previous_frame` and `previous_frame_path`, both
initially `None`. -/
structure DetectorState (Img : Type) : Type where
  previous_frame : Option Img
  previous_frame_path : Option String
  deriving DecidableEq, Repr

/-- `previous_frame = None`, `previous_frame_path = None`
(lines 151–152). -/
def initState (Img : Type) : DetectorState Img := ⟨none, none⟩

/-- An observable action of one callback invocation, in program order:
acknowledgement of the delivery (`ch.basic_ack`), publish of a detection
record (`detections_queue.basic_publish`), or a raised exception
(`raise ValueError(...)`). -/
inductive Event : Type where
  | ack
  | publish (r : MotionRecord)
  | err (msg : String)
  deriving DecidableEq, Repr

def Event.isPublish : Event → Bool
  | .publish _ => true
  | _ => false

def Event.isErr : Event → Bool
  | .err _ => true
  | _ => false

/-- One invocation of the `callback` closure of
`OpenCVDetector.process_images` (lines 100–149), for a structurally
valid announcement `msg`.  Returns the ordered list of observable
events and the state of the captured `previous_frame` /
`previous_frame_path` variables afterwards.

Source, line by line:
* 105–108: `current_frame = cv2.imread(frame_path)`; if `None`, ack the
  delivery and then `raise ValueError(f"Unable to read image ...")`.
* 111–143: if `previous_frame is not None`, run the OpenCV diff pipeline
  (abstracted as `diffContours`), filter the contours (lines 123–129),
  build `motion_data` and publish it.
* 145–147: `if os.path.split(frame_path)[1] == "frame_000000.jpg":`
  update `previous_frame`/`previous_frame_path` to the current frame.
* 149: ack the delivery.
-/
def callback {Img : Type} (imread : String → Option Img)
    (diffContours : Img → Img → List Contour)
    (st : DetectorState Img) (msg : FrameMsg) :
    List Event × DetectorState Img :=
  match imread msg.frame_path with
  | none =>
      ([Event.ack, Event.err ("Unable to read image " ++ msg.frame_path)], st)
  | some current =>
      let pubs : List Event :=
        match st.previous_frame with
        | none => []
        | some prev =>
            [Event.publish
              (mkMotionRecord msg.frame_number msg.frame_path
                (filterContours (diffContours prev current)))]
      let st' : DetectorState Img :=
        if basename msg.frame_path = "frame_000000.jpg" then
          ⟨some current, some msg.frame_path⟩
        else st
      (pubs ++ [Event.ack], st')

/-- The consume loop of `process_images` (lines 154–163): deliveries are
handed to `callback` one at a time (`prefetch_count=1`).
`start_consuming()` is guarded only by `except KeyboardInterrupt`
(line 160), so an exception raised inside the callback — such as the
`ValueError` for an undecodable image — propagates and terminates the
loop: no later delivery is processed. -/
def runSession {Img : Type} (imread : String → Option Img)
    (diffContours : Img → Img → List Contour) :
    List FrameMsg → DetectorState Img → List Event × DetectorState Img
  | [], st => ([], st)
  | msg :: rest, st =>
      let r := callback imread diffContours st msg
      if (r.1.any Event.isErr) then r
      else
        let r' := runSession imread diffContours rest r.2
        (r.1 ++ r'.1, r'.2)

/-!
Section: Playback buffer / renderer (`src/displayer/model/opencv_displayer.py`)

The `play` generator (lines 150–173):

```
next_frame_time = time.time()
sleep(3)
while len(self.buffer) >= self.buffer_size:
    if time.time() >= next_frame_time:
        frame = self.buffer.popleft()
        if frame is None:
            continue
        yield b'--frame...' + frame.tobytes() + b'\r\n'
        next_frame_time += self.delay
```

The consumer thread (`__consumer`/`__callback`) appends decoded frames
to `self.buffer` concurrently.  The model discretises one execution of
the drain loop into iterations: a schedule entry `(arr, now)` gives the
frames the consumer thread appended since the previous iteration and
the value `time.time()` reads at this iteration.  Frames are modelled
as `Option F` to keep the `if frame is None: continue` branch; wall
clock and `next_frame_time` are exact rationals. -/

/-- State of the `play` loop: the shared buffer, `next_frame_time`, and
the frames yielded so far. -/
structure PlayState (F : Type) : Type where
  buffer : List (Option F)
  nextT : ℚ
  out : List F
  deriving DecidableEq, Repr

/-- How a run of the drain loop ended. -/
inductive PlayOutcome : Type where
  /-- The schedule was exhausted with the `while` guard still true:
  the loop is still live. -/
  | pending
  /-- The `while` guard `len(buffer) >= buffer_size` failed: the
  generator returned, ending the output stream. -/
  | exited
  /-- `popleft` on an empty deque raised `IndexError`
  (reachable only when `buffer_size = 0`). -/
  | crashed
  deriving DecidableEq, Repr

/-- The drain loop of `play`, one schedule entry per iteration.  Each
iteration: the consumer thread's pending appends `arr` land at the back
of the buffer; the `while` guard `len(buffer) >= buffer_size` is
checked; if it fails the generator returns (`exited`).  Otherwise, if
`time.time() >= next_frame_time`, the front frame is popped: a `None`
frame is skipped (`continue`), any other frame is yielded and
`next_frame_time += delay`.  If the clock has not reached the deadline,
the iteration does nothing. -/
def playRun {F : Type} (delay : ℚ) (buffer_size : Nat) :
    List (List (Option F) × ℚ) → PlayState F → PlayState F × PlayOutcome
  | [], st => (st, PlayOutcome.pending)
  | (arr, now) :: rest, st =>
      let buf := st.buffer ++ arr
      if buffer_size ≤ buf.length then
        if st.nextT ≤ now then
          match buf with
          | [] => (⟨[], st.nextT, st.out⟩, PlayOutcome.crashed)
          | none :: buf' =>
              playRun delay buffer_size rest ⟨buf', st.nextT, st.out⟩
          | some f :: buf' =>
              playRun delay buffer_size rest
                ⟨buf', st.nextT + delay, st.out ++ [f]⟩
        else playRun delay buffer_size rest ⟨buf, st.nextT, st.out⟩
      else (⟨buf, st.nextT, st.out⟩, PlayOutcome.exited)

/-!
Section: URL controller (`src/streamer/controller/controller.py`)

```
HTTPS_URL_PATTERN = re.compile("^https:\/\/\S+$")

def process_url(self, url):
    if not self.__check_url(url):
        raise ValueError(f"Invalid URL: {url}")
    self.model.process_url(url)
```

`__check_url` is `bool(HTTPS_URL_PATTERN.fullmatch(url))`.  A full
match of `^https:\/\/\S+$` consumes the whole string: the literal
`https://` followed by one or more non-whitespace characters.  (The
`$` of the pattern may also match before a trailing newline, but a
trailing newline is whitespace, so `\S+` cannot absorb it and the
match then fails to span the string: `fullmatch` still rejects.) -/

/-- Python `\s` for `str` patterns: the ASCII whitespace class (space,
tab, newline, carriage return, vertical tab, form feed), the
`re`-specific separators 0x1c–0x1f, the Latin-1 spaces 0x85 and 0xa0,
and the Unicode space code points 0x1680, 0x2000–0x200a, the line and
paragraph separators 0x2028 and 0x2029, 0x202f, 0x205f, and 0x3000. -/
def isPySpace (c : Char) : Bool :=
  c = ' ' || c = '\t' || c = '\n' || c = '\r'
    || c = Char.ofNat 0x0b || c = Char.ofNat 0x0c
    || c = Char.ofNat 0x1c || c = Char.ofNat 0x1d
    || c = Char.ofNat 0x1e || c = Char.ofNat 0x1f
    || c = Char.ofNat 0x85 || c = Char.ofNat 0xa0
    || c = Char.ofNat 0x1680
    || c = Char.ofNat 0x2000 || c = Char.ofNat 0x2001
    || c = Char.ofNat 0x2002 || c = Char.ofNat 0x2003
    || c = Char.ofNat 0x2004 || c = Char.ofNat 0x2005
    || c = Char.ofNat 0x2006 || c = Char.ofNat 0x2007
    || c = Char.ofNat 0x2008 || c = Char.ofNat 0x2009
    || c = Char.ofNat 0x200a
    || c = Char.ofNat 0x2028 || c = Char.ofNat 0x2029
    || c = Char.ofNat 0x202f || c = Char.ofNat 0x205f
    || c = Char.ofNat 0x3000

/-- The literal part of the pattern: `https://`. -/
def httpsLit : List Char := ['h', 't', 't', 'p', 's', ':', '/', '/']

/-- Regex literal matching: consume the literal `ps` from the front of
`cs`, returning the remainder, or `none` on a mismatch. -/
def matchLit : List Char → List Char → Option (List Char)
  | [], cs => some cs
  | _ :: _, [] => none
  | p :: ps, c :: cs => if c = p then matchLit ps cs else none

/-- `bool(HTTPS_URL_PATTERN.fullmatch(url))`: the whole string is the
literal `https://` followed by `\S+` — at least one character, all
non-whitespace. -/
def check_url (url : String) : Bool :=
  match matchLit httpsLit url.toList with
  | none => false
  | some rest => !rest.isEmpty && rest.all (fun c => !isPySpace c)

/-- `Controller.process_url` (lines 33–46).  The result records the
raised `ValueError`, if any, and the list of invocations of
`self.model.process_url` (each entry the URL it was called with). -/
def process_url (url : String) : Option String × List String :=
  if !check_url url then
    (some ("Invalid URL: " ++ url), [])
  else
    (none, [url])

/-!
Section: Concrete fixtures for witnesses and counterexamples

Concrete instantiations of the abstract collaborators, with `Img := ℕ`:
an image reader for which exactly the path `bad.jpg` is undecodable, and
two diff pipelines (one finding a single large contour, one finding
none). -/

/-- Image reader: `bad.jpg` is undecodable, everything else decodes to
the image `1`. -/
def imreadEx : String → Option Nat :=
  fun p => if p = "bad.jpg" then none else some 1

/-- Diff pipeline finding one contour of area 600 with bounding
rectangle `(1, 2, 3, 4)`. -/
def diffEx : Nat → Nat → List Contour :=
  fun _ _ => [⟨600, ⟨1, 2, 3, 4⟩⟩]

/-- Diff pipeline finding no contours. -/
def diffNone : Nat → Nat → List Contour :=
  fun _ _ => []

/-!
Section: Claims about the Motion Detector
-/

/-- Claim C1, counterexample: the claim says that after processing a
decodable frame the previous-frame slot holds the frame just processed,
regardless of the frame's file name.  Processing
`v/frame_000001.jpg` (which decodes to the image `1`) from the initial
state leaves the slot empty instead: the update at lines 145–147 is
guarded by the file name. -/
theorem claim1_counterexample :
    imreadEx "v/frame_000001.jpg" = some 1 ∧
      (callback imreadEx diffEx (initState Nat)
          ⟨1, "v/frame_000001.jpg"⟩).2.previous_frame ≠ some 1 := by
  decide

/-- Claim C1, amended: for every decodable frame announcement, the
previous-frame slot is set to the frame just processed only when the
basename of its path is `frame_000000.jpg` (together with
`previous_frame_path`); for every other frame both slots are left
unchanged. -/
theorem claim1_amended {Img : Type} (imread : String → Option Img)
    (diffContours : Img → Img → List Contour) (st : DetectorState Img)
    (msg : FrameMsg) (img : Img) (h : imread msg.frame_path = some img) :
    (callback imread diffContours st msg).2 =
      if basename msg.frame_path = "frame_000000.jpg" then
        ⟨some img, some msg.frame_path⟩
      else st := by
  simp [callback, h]

/-- Witness for `claim1_amended` at a concrete anchor frame. -/
theorem claim1_amended_witness :
    (callback imreadEx diffEx (initState Nat)
        ⟨0, "v/frame_000000.jpg"⟩).2 =
      ⟨some 1, some "v/frame_000000.jpg"⟩ := by
  rw [claim1_amended imreadEx diffEx (initState Nat)
    ⟨0, "v/frame_000000.jpg"⟩ 1 (by decide)]
  decide

/-- Claim C4, counterexample: the claim says a contour whose area is
exactly the minimum-area threshold 500 is excluded.  The filter of
lines 124–129 skips only contours with `area < 500`, so a contour of
area exactly 500 survives. -/
theorem claim4_counterexample :
    filterContours [⟨500, ⟨0, 0, 10, 50⟩⟩] = [⟨0, 0, 10, 50⟩] := by
  simp [filterContours, lt_irrefl]

/-- Claim C4, amended: the surviving regions are exactly the bounding
rectangles of the contours with area at least 500: a contour strictly
below the threshold is excluded, and a contour exactly at the boundary
survives (the comparator `cv2.contourArea(c) < 500` guards `continue`,
not survival). -/
theorem claim4_amended (cnts : List Contour) :
    filterContours cnts =
      (cnts.filter (fun c => 500 ≤ c.area)).map Contour.rect := by
  induction cnts with
  | nil => rfl
  | cons c rest ih =>
      by_cases h : c.area < 500
      · simp [filterContours, List.filter_cons, h, not_le.mpr h,
          ih.symm]
      · simp [filterContours, List.filter_cons, h, not_lt.mp h,
          ih.symm]

/-- Claim C6: from the initial detector state (empty previous-frame
slot), processing the first frame announcement publishes no detection
record, whatever the announcement and however the image decodes. -/
theorem claim6_first_frame_publishes_nothing {Img : Type}
    (imread : String → Option Img)
    (diffContours : Img → Img → List Contour) (msg : FrameMsg) :
    ((callback imread diffContours (initState Img) msg).1.filter
        Event.isPublish) = [] := by
  cases h : imread msg.frame_path <;>
    simp [callback, initState, h, Event.isPublish, List.filter]

/-- Claim C7: in every detection record the callback publishes, the
`motion_detected` flag is true iff the record's region list is
non-empty. -/
theorem claim7_motion_iff_regions {Img : Type}
    (imread : String → Option Img)
    (diffContours : Img → Img → List Contour) (st : DetectorState Img)
    (msg : FrameMsg) (r : MotionRecord)
    (h : Event.publish r ∈ (callback imread diffContours st msg).1) :
    r.motion_detected = true ↔ r.contours ≠ [] := by
  cases himg : imread msg.frame_path with
  | none => simp [callback, himg] at h
  | some current =>
      cases hprev : st.previous_frame with
      | none => simp [callback, himg, hprev] at h
      | some prev =>
          simp [callback, himg, hprev] at h
          subst h
          simp [mkMotionRecord]

/-- Witness for `claim7_motion_iff_regions` at a concrete published
record. -/
theorem claim7_witness :
    (mkMotionRecord 1 "v/frame_000001.jpg" []).motion_detected = true ↔
      (mkMotionRecord 1 "v/frame_000001.jpg" []).contours ≠ [] :=
  claim7_motion_iff_regions imreadEx diffNone
    ⟨some 0, some "v/frame_000000.jpg"⟩ ⟨1, "v/frame_000001.jpg"⟩
    (mkMotionRecord 1 "v/frame_000001.jpg" []) (by decide)

/-- Claim C8: when the referenced image cannot be decoded, the callback
acknowledges the delivery and only then raises; the full observable
behaviour is exactly the acknowledgement followed by the error — no
record is published — and the previous-frame slots are unchanged. -/
theorem claim8_undecodable_ack_then_error {Img : Type}
    (imread : String → Option Img)
    (diffContours : Img → Img → List Contour) (st : DetectorState Img)
    (msg : FrameMsg) (h : imread msg.frame_path = none) :
    callback imread diffContours st msg =
      ([Event.ack,
        Event.err ("Unable to read image " ++ msg.frame_path)], st) := by
  simp [callback, h]

/-- Witness for `claim8_undecodable_ack_then_error` at the concrete
undecodable path. -/
theorem claim8_witness :
    callback imreadEx diffEx (initState Nat) ⟨3, "bad.jpg"⟩ =
      ([Event.ack, Event.err "Unable to read image bad.jpg"],
        initState Nat) :=
  claim8_undecodable_ack_then_error imreadEx diffEx (initState Nat)
    ⟨3, "bad.jpg"⟩ (by decide)

/-- Claim C3, counterexample: the claim says a delivery whose image
cannot be decoded does not terminate the stage's consume loop.  In a
session fed the undecodable `bad.jpg` followed by the decodable
`v/good.jpg`, the run ends at the raised `ValueError` — the second
delivery is never processed (no second acknowledgement, no events for
it): `start_consuming` is guarded only by `except KeyboardInterrupt`. -/
theorem claim3_counterexample :
    runSession imreadEx diffNone
        [⟨1, "bad.jpg"⟩, ⟨2, "v/good.jpg"⟩] (initState Nat) =
      ([Event.ack, Event.err "Unable to read image bad.jpg"],
        initState Nat)
    ∧ imreadEx "v/good.jpg" = some 1 := by
  decide

/-- Claim C3, amended: when a delivery's image cannot be decoded, the
raised `ValueError` propagates out of `start_consuming` (only
`KeyboardInterrupt` is caught) and terminates the consume loop: the
failing delivery is acknowledged first, but no later delivery of the
session is processed. -/
theorem claim3_amended {Img : Type} (imread : String → Option Img)
    (diffContours : Img → Img → List Contour) (st : DetectorState Img)
    (m : FrameMsg) (rest : List FrameMsg)
    (h : imread m.frame_path = none) :
    runSession imread diffContours (m :: rest) st =
      ([Event.ack,
        Event.err ("Unable to read image " ++ m.frame_path)], st) := by
  simp [runSession, callback, h, Event.isErr]

/-- Witness for `claim3_amended` on a concrete two-delivery session. -/
theorem claim3_amended_witness :
    runSession imreadEx diffNone
        [⟨1, "bad.jpg"⟩, ⟨2, "v/good.jpg"⟩] (initState Nat) =
      ([Event.ack, Event.err "Unable to read image bad.jpg"],
        initState Nat) :=
  claim3_amended imreadEx diffNone (initState Nat) ⟨1, "bad.jpg"⟩
    [⟨2, "v/good.jpg"⟩] (by decide)

/-- Helper for claim C10: in a session in which no processed
announcement's path has basename `frame_000000.jpg`, a run started with
an empty previous-frame slot keeps the slot empty and never
publishes. -/
theorem runSession_no_anchor {Img : Type} (imread : String → Option Img)
    (diffContours : Img → Img → List Contour) :
    ∀ (msgs : List FrameMsg) (st : DetectorState Img),
      st.previous_frame = none →
      (∀ m ∈ msgs, basename m.frame_path ≠ "frame_000000.jpg") →
      (runSession imread diffContours msgs st).2.previous_frame = none
        ∧ (runSession imread diffContours msgs st).1.filter
            Event.isPublish = []
  | [], st, hst, _ => by simp [runSession, hst]
  | m :: rest, st, hst, hmsgs => by
      have hm : basename m.frame_path ≠ "frame_000000.jpg" :=
        hmsgs m (List.mem_cons_self m rest)
      cases himg : imread m.frame_path with
      | none =>
          simp [runSession, callback, himg, Event.isErr, hst,
            Event.isPublish, List.filter]
      | some current =>
          have hrest := runSession_no_anchor imread diffContours rest st
            hst (fun x hx => hmsgs x (List.mem_cons_of_mem m hx))
          simp [runSession, callback, himg, hst, hm, Event.isErr,
            Event.isPublish, List.filter] at hrest ⊢
          exact hrest

/-- Claim C10 (implicit): in any detector session none of whose
processed announcements has a path with basename `frame_000000.jpg`,
the previous-frame slot stays empty through the whole run, and
consequently the session publishes no detection record at all, however
many decodable frames it processes. -/
theorem claim10_no_anchor_no_publish {Img : Type}
    (imread : String → Option Img)
    (diffContours : Img → Img → List Contour) (msgs : List FrameMsg)
    (h : ∀ m ∈ msgs, basename m.frame_path ≠ "frame_000000.jpg") :
    (runSession imread diffContours msgs
        (initState Img)).2.previous_frame = none
      ∧ (runSession imread diffContours msgs (initState Img)).1.filter
          Event.isPublish = [] :=
  runSession_no_anchor imread diffContours msgs (initState Img) rfl h

/-- Witness for `claim10_no_anchor_no_publish` on a concrete session of
two decodable, non-anchor frames. -/
theorem claim10_witness :
    (runSession imreadEx diffEx [⟨1, "v/a.jpg"⟩, ⟨2, "v/b.jpg"⟩]
        (initState Nat)).2.previous_frame = none
      ∧ (runSession imreadEx diffEx [⟨1, "v/a.jpg"⟩, ⟨2, "v/b.jpg"⟩]
          (initState Nat)).1.filter Event.isPublish = [] :=
  claim10_no_anchor_no_publish imreadEx diffEx
    [⟨1, "v/a.jpg"⟩, ⟨2, "v/b.jpg"⟩] (by decide)

/-- Claim C5, counterexample: the claim says every message published to
the detections channel has keys exactly `frame_number`, `frame_path`,
`motion_detected`, `regions`.  A concrete publish (previous frame
present, one surviving contour) produces a body whose fourth key is
`contours`; there is no `regions` key. -/
theorem claim5_counterexample :
    (callback imreadEx diffEx
        (⟨some 0, some "v/frame_000000.jpg"⟩ : DetectorState Nat)
        ⟨1, "v/frame_000001.jpg"⟩).1 =
      [Event.publish
        (mkMotionRecord 1 "v/frame_000001.jpg" [⟨1, 2, 3, 4⟩]),
        Event.ack]
    ∧ (mkMotionRecord 1 "v/frame_000001.jpg" [⟨1, 2, 3, 4⟩]).toJson.keys
        = ["frame_number", "frame_path", "motion_detected", "contours"]
    ∧ "regions" ∉
        (mkMotionRecord 1 "v/frame_000001.jpg"
          [⟨1, 2, 3, 4⟩]).toJson.keys := by
  decide

/-- Claim C5, amended: every message the detector publishes to the
detections channel is a JSON object whose keys are exactly
`frame_number` (an integer, echoing the announcement), `frame_path`
(a string, echoing the announcement), `motion_detected` (a boolean),
and `contours` — not `regions` — holding a list of
`[x, y, w, h]` integer quadruples. -/
theorem claim5_amended {Img : Type} (imread : String → Option Img)
    (diffContours : Img → Img → List Contour) (st : DetectorState Img)
    (msg : FrameMsg) (r : MotionRecord)
    (h : Event.publish r ∈ (callback imread diffContours st msg).1) :
    ∃ rs : List Rect,
      r.toJson = Json.obj
        [ ("frame_number", Json.int msg.frame_number)
        , ("frame_path", Json.str msg.frame_path)
        , ("motion_detected", Json.bool (!rs.isEmpty))
        , ("contours", Json.arr (rs.map Rect.toJson)) ] := by
  cases himg : imread msg.frame_path with
  | none => simp [callback, himg] at h
  | some current =>
      cases hprev : st.previous_frame with
      | none => simp [callback, himg, hprev] at h
      | some prev =>
          simp [callback, himg, hprev] at h
          subst h
          exact ⟨filterContours (diffContours prev current), rfl⟩

/-- Witness for `claim5_amended` at a concrete published record. -/
theorem claim5_amended_witness :
    ∃ rs : List Rect,
      (mkMotionRecord 1 "v/frame_000001.jpg" []).toJson = Json.obj
        [ ("frame_number", Json.int 1)
        , ("frame_path", Json.str "v/frame_000001.jpg")
        , ("motion_detected", Json.bool (!rs.isEmpty))
        , ("contours", Json.arr (rs.map Rect.toJson)) ] :=
  claim5_amended imreadEx diffNone
    ⟨some 0, some "v/frame_000000.jpg"⟩ ⟨1, "v/frame_000001.jpg"⟩
    (mkMotionRecord 1 "v/frame_000001.jpg" []) (by decide)

/-!
Section: Claim about the URL controller
-/

/-- Helper for claim C9: `matchLit ps cs` succeeds with remainder
`rest` exactly when `cs` is `ps` followed by `rest`. -/
theorem matchLit_eq_some {ps : List Char} :
    ∀ {cs rest : List Char},
      matchLit ps cs = some rest ↔ cs = ps ++ rest := by
  induction ps with
  | nil =>
      intro cs rest
      simp [matchLit]
  | cons p ps ih =>
      intro cs rest
      cases cs with
      | nil => simp [matchLit]
      | cons c cs =>
          by_cases hc : c = p
          · subst hc
            simp [matchLit, ih]
          · simp [matchLit, hc, Ne.symm hc]

/-- Claim C9: `Controller.process_url` raises `ValueError` exactly when
the URL fails `HTTPS_URL_PATTERN.fullmatch`; when it raises, the model
is never invoked, and when the URL matches, the model's `process_url`
is invoked exactly once, with that URL.  The full match holds exactly
when the URL is the literal `https://` followed by a non-empty run of
non-whitespace characters. -/
theorem claim9_process_url (url : String) :
    ((process_url url).1.isSome ↔ check_url url = false)
    ∧ (process_url url).2 = (if check_url url then [url] else [])
    ∧ (check_url url = true ↔
        ∃ rest : List Char,
          url.toList = httpsLit ++ rest ∧ rest ≠ []
            ∧ ∀ c ∈ rest, isPySpace c = false) := by
  refine ⟨?_, ?_, ?_⟩
  · cases h : check_url url <;> simp [process_url, h]
  · cases h : check_url url <;> simp [process_url, h]
  · unfold check_url
    cases h : matchLit httpsLit url.toList with
    | none =>
        simp only [Bool.false_eq_true, false_iff]
        rintro ⟨rest, hurl, -, -⟩
        rw [matchLit_eq_some.mpr hurl] at h
        exact Option.noConfusion h
    | some rest =>
        have hurl : url.toList = httpsLit ++ rest :=
          matchLit_eq_some.mp h
        simp only [Bool.and_eq_true, Bool.not_eq_true',
          List.all_eq_true, Bool.not_eq_true]
        constructor
        · rintro ⟨hne, hall⟩
          exact ⟨rest, hurl, by simpa [List.isEmpty_iff] using hne,
            hall⟩
        · rintro ⟨rest', hurl', hne', hall'⟩
          have : rest' = rest :=
            (List.append_cancel_left (hurl.symm.trans hurl')).symm
          subst this
          exact ⟨by simpa [List.isEmpty_iff] using hne', hall'⟩

/-- Witness for `claim9_process_url`: a matching URL is forwarded to
the model exactly once; a non-matching one raises. -/
theorem claim9_witness :
    (process_url "https://x").2 = ["https://x"]
    ∧ (process_url "ftp://x").1.isSome = true := by
  constructor
  · rw [(claim9_process_url "https://x").2.1]
    decide
  · have h := (claim9_process_url "ftp://x").1
    simp only [h]
    decide

/-!
Section: Claim about the playback buffer / renderer
-/

/-- Claim C2, counterexample: the claim says that once draining has
begun, whenever the buffer becomes empty playback stalls (resuming when
frames arrive) rather than terminating the output stream.  With
`buffer_size = 2`, a buffer filled to exactly its capacity and no
further arrivals, the loop releases one frame and then — with the
buffer still non-empty — the `while len(buffer) >= buffer_size` guard
fails and the generator returns: the output stream terminates without
the buffer ever becoming empty, and never resumes. -/
theorem claim2_counterexample :
    playRun (1 : ℚ) 2 [([], 3), ([], 4)]
        (⟨[some 10, some 20], 0, []⟩ : PlayState Nat) =
      (⟨[some 20], 1, [10]⟩, PlayOutcome.exited) := by
  norm_num [playRun]

/-- Helper for claim C2: the frames a run of the drain loop emits are
taken strictly FIFO — the popped entries, in order, form a prefix of
the initial buffer followed by the consumed arrivals, and the output
extends the previous output by exactly the non-`None` popped frames. -/
theorem playRun_fifo {F : Type} (delay : ℚ) (bs : Nat) :
    ∀ (sched : List (List (Option F) × ℚ)) (st : PlayState F),
      ∃ popped : List (Option F),
        popped ++ (playRun delay bs sched st).1.buffer
            <+: st.buffer ++ (sched.map Prod.fst).flatten
        ∧ (playRun delay bs sched st).1.out
            = st.out ++ popped.filterMap id
  | [], st => by
      refine ⟨[], ⟨[], ?_⟩, by simp [playRun]⟩
      simp [playRun]
  | (arr, now) :: rest, st => by
      have hjoin :
          ((((arr, now) :: rest).map Prod.fst).flatten : List (Option F))
            = arr ++ (rest.map Prod.fst).flatten := by simp
      by_cases hlen : bs ≤ (st.buffer ++ arr).length
      · by_cases ht : st.nextT ≤ now
        · rcases hbuf : st.buffer ++ arr with _ | ⟨o, buf'⟩
          · rw [hbuf] at hlen
            have heq : playRun delay bs ((arr, now) :: rest) st
                = (⟨[], st.nextT, st.out⟩, PlayOutcome.crashed) := by
              simp only [playRun]
              rw [hbuf, if_pos hlen, if_pos ht]
            refine ⟨[], ?_, ?_⟩ <;> rw [heq]
            · exact ⟨st.buffer ++ (arr ++ (rest.map Prod.fst).flatten),
                by simp [hjoin]⟩
            · simp
          · cases o with
            | none =>
                rw [hbuf] at hlen
                have heq : playRun delay bs ((arr, now) :: rest) st
                    = playRun delay bs rest ⟨buf', st.nextT, st.out⟩ := by
                  simp only [playRun]
                  rw [hbuf, if_pos hlen, if_pos ht]
                obtain ⟨p, hp, ho⟩ :=
                  playRun_fifo delay bs rest ⟨buf', st.nextT, st.out⟩
                refine ⟨none :: p, ?_, ?_⟩ <;> rw [heq]
                · obtain ⟨t, ht'⟩ := hp
                  refine ⟨t, ?_⟩
                  rw [hjoin, ← List.append_assoc, hbuf]
                  simpa using ht'
                · simpa using ho
            | some f =>
                rw [hbuf] at hlen
                have heq : playRun delay bs ((arr, now) :: rest) st
                    = playRun delay bs rest
                        ⟨buf', st.nextT + delay, st.out ++ [f]⟩ := by
                  simp only [playRun]
                  rw [hbuf, if_pos hlen, if_pos ht]
                obtain ⟨p, hp, ho⟩ := playRun_fifo delay bs rest
                  ⟨buf', st.nextT + delay, st.out ++ [f]⟩
                refine ⟨some f :: p, ?_, ?_⟩ <;> rw [heq]
                · obtain ⟨t, ht'⟩ := hp
                  refine ⟨t, ?_⟩
                  rw [hjoin, ← List.append_assoc, hbuf]
                  simpa using ht'
                · simpa using ho
        · have heq : playRun delay bs ((arr, now) :: rest) st
              = playRun delay bs rest
                  ⟨st.buffer ++ arr, st.nextT, st.out⟩ := by
            simp only [playRun]
            rw [if_pos hlen, if_neg ht]
          obtain ⟨p, hp, ho⟩ := playRun_fifo delay bs rest
            ⟨st.buffer ++ arr, st.nextT, st.out⟩
          refine ⟨p, ?_, ?_⟩ <;> rw [heq]
          · rw [hjoin, ← List.append_assoc]
            exact hp
          · exact ho
      · have heq : playRun delay bs ((arr, now) :: rest) st
            = (⟨st.buffer ++ arr, st.nextT, st.out⟩,
                PlayOutcome.exited) := by
          simp only [playRun]
          rw [if_neg hlen]
        refine ⟨[], ?_, ?_⟩ <;> rw [heq]
        · refine ⟨(rest.map Prod.fst).flatten, ?_⟩
          rw [hjoin, ← List.append_assoc]
          simp
        · simp

/-- Claim C2, amended: the drain loop releases frames strictly FIFO —
over any run the emitted frames are the non-`None` front entries of the
arrival stream, popped in order — but it runs only while the buffer
length is at least `buffer_size`: at the first iteration at which the
buffer (including pending arrivals) is below capacity, the generator
returns immediately with the buffer as it stands — even when frames
remain and whatever arrives later — terminating the output stream
rather than stalling and resuming. -/
theorem claim2_amended {F : Type} (delay : ℚ) (bs : Nat) :
    (∀ (arr : List (Option F)) (now : ℚ)
        (rest : List (List (Option F) × ℚ)) (st : PlayState F),
        (st.buffer ++ arr).length < bs →
        playRun delay bs ((arr, now) :: rest) st
          = (⟨st.buffer ++ arr, st.nextT, st.out⟩, PlayOutcome.exited))
    ∧ (∀ (sched : List (List (Option F) × ℚ)) (st : PlayState F),
        ∃ popped : List (Option F),
          popped <+: st.buffer ++ (sched.map Prod.fst).flatten
          ∧ (playRun delay bs sched st).1.out
              = st.out ++ popped.filterMap id) := by
  constructor
  · intro arr now rest st h
    simp only [playRun]
    rw [if_neg (not_le.mpr h)]
  · intro sched st
    obtain ⟨p, hp, ho⟩ := playRun_fifo delay bs sched st
    refine ⟨p, List.IsPrefix.trans ?_ hp, ho⟩
    exact ⟨(playRun delay bs sched st).1.buffer, rfl⟩

/-- Witness for `claim2_amended`: an underfilled buffer (one frame,
capacity three) makes the generator exit at once, and a concrete
drained run's output is a FIFO prefix of its arrivals. -/
theorem claim2_amended_witness :
    playRun (1 : ℚ) 3 [([some 5], 0)] (⟨[], 0, []⟩ : PlayState Nat)
      = (⟨[some 5], 0, []⟩, PlayOutcome.exited)
    ∧ ∃ popped : List (Option Nat),
        popped <+: [some 6, some 7]
        ∧ (playRun (1 : ℚ) 2 []
            (⟨[some 6, some 7], 0, []⟩ : PlayState Nat)).1.out
          = popped.filterMap id :=
  ⟨(claim2_amended (1 : ℚ) 3).1 [some 5] 0 [] ⟨[], 0, []⟩ (by decide),
   (claim2_amended (1 : ℚ) 2).2 [] ⟨[some 6, some 7], 0, []⟩⟩

end MotionDetection
